import Mathlib

/-!
Verification development for the djChat server-listing endpoint
(`server/views.py`, `ServerListViewSet.list`) and its serializer
(`server/serializer.py`, `ServerSerializer`).

The endpoint is embedded shallowly: the database is a value, query
parameters are `Option String` (a `None` result of
`request.query_params.get`), and the Django/DRF operations used by the
view (`filter`, `annotate(Count(..))`, slicing, serialization,
`exists()`) are Lean functions on lists. Python truthiness of strings
and `int()` parsing are modelled explicitly.
-/

set_option autoImplicit false

namespace DjChat

/-- A row of the `Server` model. Modelled from the spec: `server/models.py`
is not part of the sources; per the spec the model persists a name, a
category (a foreign key, flattened here to the related category name used
by the `category__name` lookup), and a many-to-many `member` relation to
users. `num_members` is a query-time annotation, not a persisted field. -/
structure Server where
  id : Int
  name : String
  category : String
  member : List Int
  deriving Repr, DecidableEq

/-- The persistent store visible to the endpoint: the server rows and the
category names. Memberships live in each server's `member` relation. -/
structure DB where
  servers : List Server
  categories : List String
  deriving Repr, DecidableEq

/-- An incoming GET request: the five query parameters exactly as
`request.query_params.get` yields them (`none` when absent), plus the
authenticated user's id (`none` for an anonymous caller, so
`request.user.is_authenticated` is `userId.isSome`). -/
structure Request where
  category : Option String
  by_user : Option String
  by_server_id : Option String
  with_num_members : Option String
  qty : Option String
  userId : Option Int
  deriving Repr, DecidableEq

/-- Python truthiness of an optional string: `None` and `""` are falsy,
every other string is truthy. This is the test `if category:`,
`if by_server_id:`, `if qty:` performs. -/
def optTruthy : Option String → Bool
  | none => false
  | some s => s != ""

/-- ASCII whitespace stripped by Python's `int()` (space, tab, newline,
carriage return, vertical tab, form feed). -/
def isPyWs (c : Char) : Bool :=
  c == ' ' || c == '\t' || c == '\n' || c == '\r' || c.toNat == 11 || c.toNat == 12

/-- Strip leading and trailing whitespace from a character list. -/
def stripWs (cs : List Char) : List Char :=
  ((cs.dropWhile isPyWs).reverse.dropWhile isPyWs).reverse

/-- After a first digit, Python's integer literals allow further digits
with single underscores between digits (`1_0`), never trailing. -/
def underscoreDigitsTail : List Char → Bool
  | [] => true
  | ['_'] => false
  | '_' :: d :: cs => d.isDigit && underscoreDigitsTail cs
  | c :: cs => c.isDigit && underscoreDigitsTail cs

/-- A nonempty digit string, underscores allowed between digits. -/
def digitsCore : List Char → Bool
  | [] => false
  | c :: cs => c.isDigit && underscoreDigitsTail cs

/-- Numeric value of a digit string, skipping underscores. -/
def digitsVal (cs : List Char) : Nat :=
  cs.foldl (fun acc c => if c == '_' then acc else acc * 10 + (c.toNat - 48)) 0

/-- Python's `int(s)`: strip whitespace, optional sign, digits (with
underscore separators); `none` models the `ValueError` raised otherwise. -/
def pyIntParse (s : String) : Option Int :=
  match stripWs s.toList with
  | '+' :: cs => if digitsCore cs then some (Int.ofNat (digitsVal cs)) else none
  | '-' :: cs => if digitsCore cs then some (-(Int.ofNat (digitsVal cs))) else none
  | cs => if digitsCore cs then some (Int.ofNat (digitsVal cs)) else none

/-- The external representation `ServerSerializer` produces for one
server. Modelled from the spec for the missing `server/models.py`: with
`fields = "__all__"` a `ModelSerializer` emits exactly the model's
persisted fields (the many-to-many `member` as the list of user ids).
The query-time `num_members` annotation is not a model field, so the
serializer as written in `server/serializer.py` never emits it; the field
is kept as an `Option` so that its presence or absence is expressible. -/
structure SerializedItem where
  id : Int
  name : String
  category : String
  member : List Int
  num_members : Option Nat
  deriving Repr, DecidableEq

/-- A server together with the optional `num_members` annotation attached
by `annotate(num_members=Count("member"))`. -/
structure AnnotatedServer where
  server : Server
  num_members : Option Nat
  deriving Repr, DecidableEq

/-- The HTTP outcome of the `list` method: a 200 with serialized items, an
`AuthenticationFailed`, a `ValidationError` with its detail message, or an
unhandled Python exception (surfaced by the framework as a 500). -/
inductive ListResult where
  | ok (items : List SerializedItem)
  | authFailed
  | validationError (detail : String)
  | pyError (msg : String)
  deriving Repr, DecidableEq

/-- `if category: queryset = queryset.filter(category__name=category)`. -/
def applyCategoryFilter (category : Option String) (qs : List Server) : List Server :=
  if optTruthy category then qs.filter (fun s => some s.category == category) else qs

/-- The lookup `filter(member=user_id)`: servers having a membership row
for the given user. The view only reaches this with an authenticated user;
an anonymous id matches no row. -/
def memberMatch (userId : Option Int) (s : Server) : Bool :=
  match userId with
  | some uid => s.member.contains uid
  | none => false

/-- The queryset after the `category` and `by_user` filters, in the
order the view applies them, starting from `Server.objects.all()`. -/
def preFilteredServers (db : DB) (req : Request) : List Server :=
  let qs := applyCategoryFilter req.category db.servers
  if req.by_user == some "true" then qs.filter (memberMatch req.userId) else qs

/-- The `if by_server_id:` block: parse as `int` (`ValidationError` naming
the value on `ValueError`), filter `id=server_id_int`, and raise a
not-found `ValidationError` when the resulting queryset is empty. -/
def byServerIdStep (by_server_id : Option String) (qs : List Server) :
    Except ListResult (List Server) :=
  match by_server_id with
  | none => Except.ok qs
  | some v =>
    if v == "" then Except.ok qs
    else
      match pyIntParse v with
      | none =>
        Except.error (ListResult.validationError
          ("Server id " ++ v ++ " must be an integer."))
      | some sid =>
        let qs2 := qs.filter (fun s => s.id == sid)
        if qs2.isEmpty then
          Except.error (ListResult.validationError
            ("Server with id " ++ toString sid ++ " not found."))
        else Except.ok qs2

/-- `annotate(num_members=Count("member"))` when requested; otherwise the
rows carry no annotation. (When the queryset was already filtered on the
same relation the SQL count can differ from the full membership count, but
the serializer below drops the annotation, so the value is unobservable.) -/
def annotateNumMembers (withNum : Bool) (qs : List Server) : List AnnotatedServer :=
  if withNum then qs.map (fun s => ⟨s, some s.member.length⟩)
  else qs.map (fun s => ⟨s, none⟩)

/-- The `if qty:` block: `queryset = queryset[: int(qty)]`. A non-integer
`qty` raises an uncaught `ValueError` from `int()`; a negative bound makes
Django's `QuerySet.__getitem__` raise `ValueError` ("Negative indexing is
not supported."); otherwise the slice keeps the first `qty` rows. -/
def qtyStep (qty : Option String) (qs : List AnnotatedServer) :
    Except ListResult (List AnnotatedServer) :=
  match qty with
  | none => Except.ok qs
  | some v =>
    if v == "" then Except.ok qs
    else
      match pyIntParse v with
      | none =>
        Except.error (ListResult.pyError
          ("invalid literal for int() with base 10: " ++ v))
      | some n =>
        if n < 0 then Except.error (ListResult.pyError "Negative indexing is not supported.")
        else Except.ok (qs.take n.toNat)

/-- `ServerSerializer(instance, context={"num_members": ...})` applied to
one row: with `fields = "__all__"` it emits the model fields and ignores
both the annotation and the context flag, so `num_members` is `none`. -/
def serverSerialize (_numMembersCtx : Bool) (a : AnnotatedServer) : SerializedItem :=
  { id := a.server.id
    name := a.server.name
    category := a.server.category
    member := a.server.member
    num_members := none }

/-- `ServerListViewSet.list`: read the five query parameters, apply the
category filter, run the grouped authentication check
`(by_user or by_server_id) and not request.user.is_authenticated`, filter
by membership and by server id, annotate, slice, and serialize. -/
def listServers (db : DB) (req : Request) : ListResult :=
  let by_user := req.by_user == some "true"
  let with_num_members := req.with_num_members == some "true"
  if (by_user || optTruthy req.by_server_id) && !req.userId.isSome then
    ListResult.authFailed
  else
    match byServerIdStep req.by_server_id (preFilteredServers db req) with
    | Except.error e => e
    | Except.ok qs =>
      match qtyStep req.qty (annotateNumMembers with_num_members qs) with
      | Except.error e => e
      | Except.ok qs2 => ListResult.ok (qs2.map (serverSerialize with_num_members))

/-- Any error produced by the `by_server_id` block is a validation
failure. -/
theorem byServerIdStep_error_shape (bs : Option String) (qs : List Server) (e : ListResult)
    (h : byServerIdStep bs qs = Except.error e) : ∃ d, e = ListResult.validationError d := by
  unfold byServerIdStep at h
  dsimp only at h
  split at h
  · cases h
  · split at h
    · cases h
    · split at h
      · cases h; exact ⟨_, rfl⟩
      · split at h
        · cases h; exact ⟨_, rfl⟩
        · cases h

/-- Any error produced by the `qty` block is an unhandled Python error. -/
theorem qtyStep_error_shape (q : Option String) (l : List AnnotatedServer) (e : ListResult)
    (h : qtyStep q l = Except.error e) : ∃ m, e = ListResult.pyError m := by
  unfold qtyStep at h
  split at h
  · cases h
  · split at h
    · cases h
    · split at h
      · cases h; exact ⟨_, rfl⟩
      · split at h
        · cases h; exact ⟨_, rfl⟩
        · cases h

/-- A successful response decomposes into the pipeline's stages: the id
step succeeded on the pre-filtered queryset, the qty step succeeded on the
annotated rows, and the body is their serialization. -/
theorem listServers_ok_inv (db : DB) (req : Request) (items : List SerializedItem)
    (h : listServers db req = ListResult.ok items) :
    ∃ qs qs2,
      byServerIdStep req.by_server_id (preFilteredServers db req) = Except.ok qs ∧
      qtyStep req.qty (annotateNumMembers (req.with_num_members == some "true") qs) =
        Except.ok qs2 ∧
      items = qs2.map (serverSerialize (req.with_num_members == some "true")) := by
  simp only [listServers] at h
  split at h
  · cases h
  · split at h
    · rename_i e heq
      obtain ⟨d, rfl⟩ := byServerIdStep_error_shape _ _ _ heq
      cases h
    · rename_i qs heq
      split at h
      · rename_i e2 heq2
        obtain ⟨m, rfl⟩ := qtyStep_error_shape _ _ _ heq2
        cases h
      · rename_i qs2 heq2
        cases h
        exact ⟨qs, qs2, heq, heq2, rfl⟩

/-- Rows surviving the id step come from the incoming queryset. -/
theorem byServerIdStep_ok_subset (bs : Option String) (qs qs2 : List Server)
    (h : byServerIdStep bs qs = Except.ok qs2) : ∀ s ∈ qs2, s ∈ qs := by
  unfold byServerIdStep at h
  dsimp only at h
  split at h
  · cases h; exact fun s hs => hs
  · split at h
    · cases h; exact fun s hs => hs
    · split at h
      · cases h
      · split at h
        · cases h
        · cases h; exact fun s hs => (List.mem_filter.mp hs).1

/-- Rows surviving the qty step come from the incoming queryset. -/
theorem qtyStep_ok_subset (q : Option String) (l l2 : List AnnotatedServer)
    (h : qtyStep q l = Except.ok l2) : ∀ a ∈ l2, a ∈ l := by
  unfold qtyStep at h
  split at h
  · cases h; exact fun a ha => ha
  · split at h
    · cases h; exact fun a ha => ha
    · split at h
      · cases h
      · split at h
        · cases h
        · cases h; exact fun a ha => List.take_subset _ _ ha

/-- Every annotated row's server belongs to the annotated queryset. -/
theorem server_mem_of_mem_annotate (b : Bool) (qs : List Server) (a : AnnotatedServer)
    (h : a ∈ annotateNumMembers b qs) : a.server ∈ qs := by
  unfold annotateNumMembers at h
  split at h <;> (obtain ⟨s, hs, rfl⟩ := List.mem_map.mp h; exact hs)

/-- Every row of the pre-filtered queryset with a truthy `category`
parameter has exactly that category name. -/
theorem category_of_mem_preFiltered (db : DB) (req : Request) (c : String) (s : Server)
    (hc : req.category = some c) (hne : c ≠ "") (hs : s ∈ preFilteredServers db req) :
    s.category = c := by
  unfold preFilteredServers at hs
  have hs1 : s ∈ applyCategoryFilter req.category db.servers := by
    split at hs
    · exact (List.mem_filter.mp hs).1
    · exact hs
  unfold applyCategoryFilter at hs1
  rw [hc] at hs1
  simp [optTruthy, hne] at hs1
  exact hs1.2

/-- A stored row passing the category test and, when requested, the
membership test, survives the two pre-filters. -/
theorem mem_preFilteredServers (db : DB) (req : Request) (s : Server)
    (hs : s ∈ db.servers)
    (hcat : optTruthy req.category = true → (some s.category == req.category) = true)
    (hbu : req.by_user = some "true" → memberMatch req.userId s = true) :
    s ∈ preFilteredServers db req := by
  unfold preFilteredServers
  have h1 : s ∈ applyCategoryFilter req.category db.servers := by
    unfold applyCategoryFilter
    split
    · next ht => exact List.mem_filter.mpr ⟨hs, hcat ht⟩
    · exact hs
  split
  · next hb => exact List.mem_filter.mpr ⟨h1, hbu (by simpa using hb)⟩
  · exact h1

/-- A stored row passing the id test (when one is requested) survives the
`by_server_id` step whenever that step succeeds. -/
theorem mem_byServerIdStep_ok (bs : Option String) (qsIn qsOut : List Server) (s : Server)
    (h : byServerIdStep bs qsIn = Except.ok qsOut) (hs : s ∈ qsIn)
    (hid : ∀ v sid, bs = some v → v ≠ "" → pyIntParse v = some sid → s.id = sid) :
    s ∈ qsOut := by
  unfold byServerIdStep at h
  dsimp only at h
  split at h
  · cases h; exact hs
  · rename_i v
    split at h
    · cases h; exact hs
    · rename_i hv
      split at h
      · cases h
      · rename_i sid hp
        split at h
        · cases h
        · cases h
          have hsid : s.id = sid := hid v sid rfl (by simpa using hv) hp
          exact List.mem_filter.mpr ⟨hs, by simp [hsid]⟩

/-- Annotating and then serializing is serializing alone: the serializer
drops the annotation either way. -/
theorem annotate_serialize_map (b : Bool) (qs : List Server) :
    (annotateNumMembers b qs).map (serverSerialize b) =
      qs.map (fun s => (⟨s.id, s.name, s.category, s.member, none⟩ : SerializedItem)) := by
  cases b <;>
    simp [annotateNumMembers, serverSerialize, List.map_map, Function.comp]

/-- Annotation commutes with taking a prefix. -/
theorem annotate_take (b : Bool) (qs : List Server) (k : Nat) :
    (annotateNumMembers b qs).take k = annotateNumMembers b (qs.take k) := by
  cases b <;> simp [annotateNumMembers, List.map_take]

/-- A small concrete store: two servers in category "Games" (with 1 and 2
members), one in "Music". -/
def exDB : DB :=
  ⟨[⟨1, "alpha", "Games", [7]⟩, ⟨2, "beta", "Games", [7, 8]⟩, ⟨3, "gamma", "Music", [8]⟩],
   ["Games", "Music"]⟩

/-- C1: the claim says that with `with_num_members=true` every returned
item carries a `num_members` field equal to the server's member count, and
the view's own docstring promises the same; but `ServerSerializer` with
`fields = "__all__"` emits only model fields and ignores the
`num_members` context flag, so the annotation is dropped: a request with
`with_num_members=true` over servers with 1, 2 and 1 members returns every
item with `num_members` absent. -/
theorem c1_num_members_always_omitted :
    listServers exDB ⟨none, none, none, some "true", none, none⟩ =
      ListResult.ok
        [⟨1, "alpha", "Games", [7], none⟩,
         ⟨2, "beta", "Games", [7, 8], none⟩,
         ⟨3, "gamma", "Music", [8], none⟩] ∧
    exDB.servers.map (fun s => s.member.length) = [1, 2, 1] := by
  decide

/-- C2: an unauthenticated request with `by_user` equal to `"true"` or a
non-empty `by_server_id` fails with an authentication error, whatever the
other parameters; in particular `by_server_id` alone does not bypass the
check. -/
theorem c2_unauthenticated_scoped_request_fails (db : DB) (req : Request)
    (hanon : req.userId = none)
    (h : req.by_user = some "true" ∨ ∃ v, req.by_server_id = some v ∧ v ≠ "") :
    listServers db req = ListResult.authFailed := by
  have hb : ((req.by_user == some "true") || optTruthy req.by_server_id) = true := by
    rcases h with h | ⟨v, hv, hne⟩
    · simp [h]
    · simp [optTruthy, hv, hne]
  simp [listServers, hb, hanon]

/-- C2 witness: a concrete unauthenticated request carrying only
`by_server_id` is rejected. -/
theorem c2_unauthenticated_scoped_request_fails_witness :
    listServers exDB ⟨none, none, some "5", none, none, none⟩ = ListResult.authFailed :=
  c2_unauthenticated_scoped_request_fails exDB ⟨none, none, some "5", none, none, none⟩ rfl
    (Or.inr ⟨"5", rfl, by decide⟩)

/-- C3 counterexample: `by_user` present with value `"false"` and
`by_server_id` present with the empty value, caller unauthenticated — the
claim demands an authentication failure for any present value, but the
request succeeds, because the view tests truthiness, not presence. -/
theorem c3_present_params_no_auth_error :
    listServers exDB ⟨none, some "false", some "", none, none, none⟩ =
      ListResult.ok
        [⟨1, "alpha", "Games", [7], none⟩,
         ⟨2, "beta", "Games", [7, 8], none⟩,
         ⟨3, "gamma", "Music", [8], none⟩] := by
  decide

/-- C3 (amended): the authentication gate fires on truthiness, not
presence: when `by_user` equals `"true"` or `by_server_id` is present and
non-empty, and the caller is unauthenticated, the request fails with an
authentication error before any membership or id filter is applied. -/
theorem c3_truthy_params_require_auth (db : DB) (req : Request)
    (h : ((req.by_user == some "true") || optTruthy req.by_server_id) = true)
    (hanon : req.userId = none) :
    listServers db req = ListResult.authFailed := by
  simp [listServers, h, hanon]

/-- C3 witness: a concrete unauthenticated request with `by_user=true`. -/
theorem c3_truthy_params_require_auth_witness :
    listServers exDB ⟨none, some "true", none, none, none, none⟩ = ListResult.authFailed :=
  c3_truthy_params_require_auth exDB ⟨none, some "true", none, none, none, none⟩ (by decide) rfl

/-- C4 counterexample: two requests with a `by_server_id` value that
`int()` cannot parse and whose response is not a validation failure — an
unauthenticated request with `by_server_id=abc` fails authentication
first, and an authenticated request with an empty `by_server_id` skips
the block entirely and succeeds. -/
theorem c4_nonint_server_id_not_always_validation :
    (pyIntParse "abc" = none ∧
      listServers exDB ⟨none, none, some "abc", none, none, none⟩ = ListResult.authFailed) ∧
    (pyIntParse "" = none ∧
      listServers exDB ⟨none, none, some "", none, none, some 7⟩ =
        ListResult.ok
          [⟨1, "alpha", "Games", [7], none⟩,
           ⟨2, "beta", "Games", [7, 8], none⟩,
           ⟨3, "gamma", "Music", [8], none⟩]) := by
  decide

/-- C4 (amended): for every authenticated request whose `by_server_id` is
non-empty and not parseable as an integer, the response is a validation
failure whose message names the offending value. -/
theorem c4_nonint_server_id_validation (db : DB) (req : Request) (v : String)
    (hbs : req.by_server_id = some v) (hne : v ≠ "") (hp : pyIntParse v = none)
    (hauth : req.userId.isSome = true) :
    listServers db req =
      ListResult.validationError ("Server id " ++ v ++ " must be an integer.") := by
  simp [listServers, byServerIdStep, hbs, hne, hp, hauth]

/-- C4 witness: authenticated request with `by_server_id=abc`. -/
theorem c4_nonint_server_id_validation_witness :
    listServers exDB ⟨none, none, some "abc", none, none, some 7⟩ =
      ListResult.validationError ("Server id " ++ "abc" ++ " must be an integer.") :=
  c4_nonint_server_id_validation exDB ⟨none, none, some "abc", none, none, some 7⟩ "abc" rfl
    (by decide) (by decide) rfl

/-- C5 counterexample: an unauthenticated request with `by_server_id=99`
(no server 99 exists) yields an authentication failure, not the claimed
not-found validation failure; and an authenticated request for the
existing server 1 under `category=Music` yields the not-found failure
instead of being restricted to that server, because the id lookup runs on
the already category-filtered queryset. -/
theorem c5_not_found_counterexample :
    ((exDB.servers.map Server.id).contains 99 = false ∧
      listServers exDB ⟨none, none, some "99", none, none, none⟩ = ListResult.authFailed) ∧
    ((exDB.servers.map Server.id).contains 1 = true ∧
      listServers exDB ⟨some "Music", none, some "1", none, none, some 7⟩ =
        ListResult.validationError "Server with id 1 not found.") := by
  decide

/-- C5 (amended): for an authenticated request whose `by_server_id` parses
to the integer `sid`, the id lookup applies to the queryset left by the
category and membership filters: if no such filtered server has id `sid`
the response is the not-found validation failure (even when a server with
that id exists outside those filters); if exactly one filtered server has
id `sid` and no `qty` is given, the response is that single serialized
server. -/
theorem c5_server_id_scoped_to_filtered_queryset (db : DB) (req : Request) (v : String)
    (sid : Int) (hbs : req.by_server_id = some v) (hne : v ≠ "")
    (hp : pyIntParse v = some sid) (hauth : req.userId.isSome = true) :
    ((preFilteredServers db req).filter (fun s => s.id == sid) = [] →
      listServers db req =
        ListResult.validationError ("Server with id " ++ toString sid ++ " not found.")) ∧
    (∀ s : Server, (preFilteredServers db req).filter (fun t => t.id == sid) = [s] →
      req.qty = none →
      listServers db req = ListResult.ok [⟨s.id, s.name, s.category, s.member, none⟩]) := by
  constructor
  · intro hempty
    simp [listServers, byServerIdStep, hbs, hne, hp, hauth, hempty]
  · intro s hone hqty
    cases hw : (req.with_num_members == some "true") <;>
      simp [listServers, byServerIdStep, hbs, hne, hp, hauth, hone, hqty, qtyStep,
        annotateNumMembers, serverSerialize, hw]

/-- C5 witness: authenticated request for the existing server 2. -/
theorem c5_server_id_scoped_to_filtered_queryset_witness :
    listServers exDB ⟨none, none, some "2", none, none, some 7⟩ =
      ListResult.ok [⟨2, "beta", "Games", [7, 8], none⟩] :=
  (c5_server_id_scoped_to_filtered_queryset exDB ⟨none, none, some "2", none, none, some 7⟩
      "2" 2 rfl (by decide) (by decide) rfl).2
    ⟨2, "beta", "Games", [7, 8]⟩ (by decide) rfl

/-- C6 counterexample: with `category=Games` and `qty=1` over a store
holding two "Games" servers, only the first is returned — the second
satisfies the category filter (and no other filter was requested) yet is
excluded, so the inclusion half of the claim fails as stated. -/
theorem c6_truncation_drops_matching_server :
    exDB.servers.map Server.category = ["Games", "Games", "Music"] ∧
    listServers exDB ⟨some "Games", none, none, none, some "1", none⟩ =
      ListResult.ok [⟨1, "alpha", "Games", [7], none⟩] := by
  decide

/-- C6 (amended): for a request with a non-empty `category` that returns a
success list, every returned item has exactly that category name; and when
no `qty` truncation is requested, every stored server with that category
name that also passes the membership filter (when `by_user=true`) and the
id filter (when a non-empty `by_server_id` is given) appears in the
response. -/
theorem c6_category_filter_exact (db : DB) (req : Request) (c : String)
    (items : List SerializedItem) (hcat : req.category = some c) (hne : c ≠ "")
    (hok : listServers db req = ListResult.ok items) :
    (∀ it ∈ items, it.category = c) ∧
    (req.qty = none → ∀ s ∈ db.servers, s.category = c →
      (req.by_user = some "true" → memberMatch req.userId s = true) →
      (∀ v sid, req.by_server_id = some v → v ≠ "" → pyIntParse v = some sid → s.id = sid) →
      (⟨s.id, s.name, s.category, s.member, none⟩ : SerializedItem) ∈ items) := by
  obtain ⟨qs, qs2, hbs, hq, rfl⟩ := listServers_ok_inv db req items hok
  constructor
  · intro it hit
    obtain ⟨a, ha, rfl⟩ := List.mem_map.mp hit
    have ha2 := qtyStep_ok_subset _ _ _ hq a ha
    have ha3 := server_mem_of_mem_annotate _ _ _ ha2
    have ha4 := byServerIdStep_ok_subset _ _ _ hbs _ ha3
    have hc := category_of_mem_preFiltered db req c _ hcat hne ha4
    simpa [serverSerialize] using hc
  · intro hqty s hs hcatEq hmem hid
    have hpre : s ∈ preFilteredServers db req :=
      mem_preFilteredServers db req s hs (fun _ => by simp [hcat, hcatEq]) hmem
    have hqs : s ∈ qs := mem_byServerIdStep_ok _ _ _ _ hbs hpre hid
    rw [hqty] at hq
    have hq2 : qs2 = annotateNumMembers (req.with_num_members == some "true") qs := by
      unfold qtyStep at hq
      cases hq
      rfl
    subst hq2
    rw [annotate_serialize_map]
    exact List.mem_map.mpr ⟨s, hqs, rfl⟩

/-- C6 witness: `category=Games` without `qty` returns exactly the two
"Games" servers, and both halves of the amended statement check out on
them. -/
theorem c6_category_filter_exact_witness :
    (∀ it ∈ [(⟨1, "alpha", "Games", [7], none⟩ : SerializedItem),
             ⟨2, "beta", "Games", [7, 8], none⟩], it.category = "Games") ∧
    (⟨2, "beta", "Games", [7, 8], none⟩ : SerializedItem) ∈
      [(⟨1, "alpha", "Games", [7], none⟩ : SerializedItem),
       ⟨2, "beta", "Games", [7, 8], none⟩] := by
  have h := c6_category_filter_exact exDB ⟨some "Games", none, none, none, none, none⟩
    "Games"
    [⟨1, "alpha", "Games", [7], none⟩, ⟨2, "beta", "Games", [7, 8], none⟩]
    rfl (by decide) (by decide)
  exact ⟨h.1, h.2 rfl ⟨2, "beta", "Games", [7, 8]⟩ (by decide) rfl
    (fun hfalse => by cases hfalse) (fun v sid hv => by cases hv)⟩

/-- C7 counterexample: `qty=-1` parses as the integer -1, but the slice
`queryset[:-1]` makes Django raise `ValueError` ("Negative indexing is not
supported."), so the response is an unhandled failure rather than a list
of min(N, M) items. -/
theorem c7_negative_qty_errors :
    pyIntParse "-1" = some (-1) ∧
    listServers exDB ⟨none, none, none, none, some "-1", none⟩ =
      ListResult.pyError "Negative indexing is not supported." := by
  decide

/-- C7 (amended): when `qty` parses to a nonnegative integer N and the
request succeeds, the response holds exactly min(N, M) items, where M is
the size of the filtered queryset, and they are the serializations of its
first min(N, M) rows in their original relative order. -/
theorem c7_qty_truncates_to_prefix (db : DB) (req : Request) (v : String) (n : Int)
    (qs : List Server) (items : List SerializedItem)
    (hq : req.qty = some v) (hne : v ≠ "") (hp : pyIntParse v = some n) (hn : 0 ≤ n)
    (hbs : byServerIdStep req.by_server_id (preFilteredServers db req) = Except.ok qs)
    (hok : listServers db req = ListResult.ok items) :
    items = (qs.take n.toNat).map
      (fun s => (⟨s.id, s.name, s.category, s.member, none⟩ : SerializedItem)) ∧
    items.length = min n.toNat qs.length := by
  obtain ⟨qs', qs2, hbs', hq2, rfl⟩ := listServers_ok_inv db req items hok
  have hqq : qs' = qs := by
    rw [hbs] at hbs'
    cases hbs'
    rfl
  subst hqq
  rw [hq] at hq2
  unfold qtyStep at hq2
  dsimp only at hq2
  rw [if_neg (by simpa using hne), hp] at hq2
  dsimp only at hq2
  rw [if_neg (by omega)] at hq2
  cases hq2
  rw [annotate_take, annotate_serialize_map]
  refine ⟨rfl, ?_⟩
  simp [List.length_take]

/-- C7 witness: `qty=1` over two matching "Games" servers returns exactly
the first, and 1 = min(1, 2). -/
theorem c7_qty_truncates_to_prefix_witness :
    [(⟨1, "alpha", "Games", [7], none⟩ : SerializedItem)] =
      ([(⟨1, "alpha", "Games", [7]⟩ : Server), ⟨2, "beta", "Games", [7, 8]⟩].take
        (Int.toNat 1)).map
        (fun s => (⟨s.id, s.name, s.category, s.member, none⟩ : SerializedItem)) ∧
    [(⟨1, "alpha", "Games", [7], none⟩ : SerializedItem)].length =
      min (Int.toNat 1)
        [(⟨1, "alpha", "Games", [7]⟩ : Server), ⟨2, "beta", "Games", [7, 8]⟩].length :=
  c7_qty_truncates_to_prefix exDB ⟨some "Games", none, none, none, some "1", none⟩ "1" 1
    [⟨1, "alpha", "Games", [7]⟩, ⟨2, "beta", "Games", [7, 8]⟩]
    [⟨1, "alpha", "Games", [7], none⟩]
    rfl (by decide) (by decide) (by decide) rfl (by decide)

/-- C8: a non-empty `qty` that `int()` cannot parse, on a request that
passes the authentication gate and the `by_server_id` block, propagates as
an unhandled `ValueError`, not as a client-visible validation error. -/
theorem c8_nonint_qty_unhandled (db : DB) (req : Request) (v : String) (qs : List Server)
    (hq : req.qty = some v) (hne : v ≠ "") (hp : pyIntParse v = none)
    (hauthOk : (((req.by_user == some "true") || optTruthy req.by_server_id) &&
      !req.userId.isSome) = false)
    (hbs : byServerIdStep req.by_server_id (preFilteredServers db req) = Except.ok qs) :
    listServers db req =
      ListResult.pyError ("invalid literal for int() with base 10: " ++ v) := by
  simp only [listServers]
  rw [if_neg (by simp only [hauthOk]; decide)]
  rw [hbs]
  dsimp only
  rw [hq]
  unfold qtyStep
  dsimp only
  rw [if_neg (by simpa using hne), hp]

/-- C8 witness: `qty=abc` on an otherwise plain request yields the
unhandled parse failure. -/
theorem c8_nonint_qty_unhandled_witness :
    listServers exDB ⟨none, none, none, none, some "abc", none⟩ =
      ListResult.pyError ("invalid literal for int() with base 10: " ++ "abc") :=
  c8_nonint_qty_unhandled exDB ⟨none, none, none, none, some "abc", none⟩ "abc"
    exDB.servers rfl (by decide) (by decide) (by decide) rfl

/-- The view's execution threaded through the store: every ORM operation
it performs (`objects.all()`, the filters, `exists()`, `annotate`, the
slice) is a read returning the store unchanged, and the method contains no
create, update or delete call. The pair holds the HTTP outcome and the
store once the request completes. -/
def listServersSt (db : DB) (req : Request) : ListResult × DB :=
  let by_user := req.by_user == some "true"
  let with_num_members := req.with_num_members == some "true"
  if (by_user || optTruthy req.by_server_id) && !req.userId.isSome then
    (ListResult.authFailed, db)
  else
    let step1 : List Server × DB := (preFilteredServers db req, db)
    match byServerIdStep req.by_server_id step1.1 with
    | Except.error e => (e, step1.2)
    | Except.ok qs =>
      match qtyStep req.qty (annotateNumMembers with_num_members qs) with
      | Except.error e => (e, step1.2)
      | Except.ok qs2 =>
        (ListResult.ok (qs2.map (serverSerialize with_num_members)), step1.2)

/-- C9: the list operation never changes the persisted servers, categories
or memberships — on every request, successful or failing, the store after
the request equals the store before it, and the outcome is exactly the
pure `listServers` result. -/
theorem c9_list_is_read_only (db : DB) (req : Request) :
    (listServersSt db req).2 = db ∧ (listServersSt db req).1 = listServers db req := by
  constructor
  · simp only [listServersSt]
    split
    · rfl
    · split
      · rfl
      · split <;> rfl
  · simp only [listServersSt, listServers]
    split
    · rfl
    · split
      · rfl
      · split <;> rfl

/-- C10: a parameter given as the empty string behaves exactly as an
absent parameter — an empty `by_server_id` triggers neither the
authentication gate nor integer validation nor id filtering, an empty
`category` applies no category filter, an empty `qty` applies no
truncation, an empty `with_num_members` requests no annotation — and
`by_user` with any value other than the exact string `"true"` applies no
membership filter. -/
theorem c10_empty_params_inert (db : DB) (req : Request) :
    listServers db { req with category := some "" } =
      listServers db { req with category := none } ∧
    listServers db { req with by_server_id := some "" } =
      listServers db { req with by_server_id := none } ∧
    listServers db { req with qty := some "" } =
      listServers db { req with qty := none } ∧
    listServers db { req with with_num_members := some "" } =
      listServers db { req with with_num_members := none } ∧
    ∀ v, v ≠ "true" →
      listServers db { req with by_user := some v } =
        listServers db { req with by_user := none } := by
  refine ⟨?_, ?_, ?_, ?_, ?_⟩
  · simp [listServers, preFilteredServers, applyCategoryFilter, optTruthy]
  · simp [listServers, byServerIdStep, optTruthy, preFilteredServers]
  · simp [listServers, qtyStep, preFilteredServers]
  · simp [listServers, preFilteredServers]
  · intro v hv
    simp [listServers, preFilteredServers, hv]

/-- C10 witness: on the concrete store, `by_user=false` from an anonymous
caller behaves as if `by_user` were absent. -/
theorem c10_empty_params_inert_witness :
    listServers exDB { (⟨none, none, none, none, none, none⟩ : Request) with
        by_user := some "false" } =
      listServers exDB { (⟨none, none, none, none, none, none⟩ : Request) with
        by_user := none } :=
  (c10_empty_params_inert exDB ⟨none, none, none, none, none, none⟩).2.2.2.2 "false"
    (by decide)

end DjChat
